import Mathlib

/-!
Verification of the `DependencyInjected` lifecycle-wrapper pattern
(`src/DependencyInjected.h`).

The C++ core is a lifecycle wrapper `DependencyInjected<T>` holding one
inline storage slot (`char Memory[sizeof(T)]`), a raw instance pointer
(`T* Instance`), a copied dependencies descriptor (`DepsT Deps` plus the
`bool SetDeps` flag) and the liveness flag (`bool Initialized`, inherited
from `IDependencyInjected`), together with two non-owning proxy types
`OptionalDependency<T>` / `RequiredDependency<T>`.

Shallow embedding conventions:
  * the component type `T` is a `Component St D A R SA` value: `construct`
    is the default constructor `T()`, `init` is `T::Initialize(deps, args)`
    (mutating the instance and returning `T`'s result `R`), `shut` is
    `T::Shutdown(args)`;
  * the byte slot `Memory` is an `InstMem St`: `zero` means every byte of
    the slot is zero (the `memset(Memory, 0, sizeof(Memory))` state) and
    `obj s` means the slot holds a constructed instance in state `s`;
  * the `T* Instance` pointer is modelled by its only observable content:
    the Boolean `Instance` says whether the pointer is non-null (when
    non-null it always points at the wrapper's own slot);
  * `DI_DEBUG_ASSERT` failures are modelled as `Except.error` results with
    the error kind named by the spec's error taxonomy; a successful debug
    run is `Except.ok`.
-/

namespace DI

/-- The spec's error taxonomy for contract violations (section 7). -/
inductive WError : Type where
  | DependenciesNotBound : WError
  | AlreadyLive : WError
  | NotLive : WError
  | MissingRequiredDependency : WError
  | DestroyedWhileLive : WError
deriving DecidableEq, Repr

/-- A wrapped component type `T`: its instance-state type `St`, its
`T::Dependencies` descriptor type `D`, the extra initialization argument
type `A`, the initialization result type `R` (uninterpreted by the
wrapper) and the shutdown argument type `SA`.  `construct` is the default
constructor `T()`, `init` is `T::Initialize`, `shut` is `T::Shutdown`. -/
structure Component (St D A R SA : Type) where
  construct : St
  init : St → D → A → St × R
  shut : St → SA → St

/-- Contents of the wrapper's byte slot `char Memory[sizeof(T)]`:
either every byte is zero (`zero`), or a constructed instance in state
`s` occupies the slot (`obj s`). -/
inductive InstMem (St : Type) : Type where
  | zero : InstMem St
  | obj : St → InstMem St
deriving DecidableEq, Repr

/-- Dereference the slot as an instance, if one is present. -/
def InstMem.toObj {St : Type} : InstMem St → Option St
  | .zero => none
  | .obj s => some s

/-- Whether the slot holds a constructed instance. -/
def InstMem.isObj {St : Type} : InstMem St → Bool
  | .zero => false
  | .obj _ => true

/-- Mutate the instance held in the slot (a method call on the live
object); a zeroed slot is unchanged. -/
def InstMem.mapObj {St : Type} (f : St → St) : InstMem St → InstMem St
  | .zero => .zero
  | .obj s => .obj (f s)

/-- The wrapper `DependencyInjected<T>` (fields at
`src/DependencyInjected.h:266`-`273` plus the inherited `Initialized`
flag of `IDependencyInjected`). -/
structure DependencyInjected (St D : Type) : Type where
  /-- Contents of `char Memory[sizeof(T)]`. -/
  Memory : InstMem St
  /-- Whether `T* Instance` is non-null (a non-null `Instance` always
  points at this wrapper's own `Memory` slot). -/
  Instance : Bool
  /-- Field `DepsT Deps`, the copied descriptor (always has some value; the
  wrapper's constructor default-constructs it). -/
  Deps : D
  /-- Field `bool SetDeps` — whether a descriptor has ever been bound. -/
  SetDeps : Bool
  /-- Field `bool Initialized` — the Liveness Cell, inherited from
  `IDependencyInjected`. -/
  Initialized : Bool
deriving DecidableEq, Repr

namespace DependencyInjected

variable {St D A R SA : Type}

/-- Models `IDependencyInjected::IsInitialized` — pure read of the liveness
flag. -/
def IsInitialized (w : DependencyInjected St D) : Bool :=
  w.Initialized

/-- The constructor `DependencyInjected()`: zeroes the slot; the member
initializers leave `Instance = nullptr`, `SetDeps = false`,
`Initialized = false`; `Deps` is default-constructed (`d0` is the
default-constructed descriptor value). -/
def create (d0 : D) : DependencyInjected St D :=
  { Memory := .zero
    Instance := false
    Deps := d0
    SetDeps := false
    Initialized := false }

/-- Models `SetDependencies(deps)`: debug-asserts `!IsInitialized()` (binding
while `Live` is the `AlreadyLive` violation), then copies the descriptor
and sets `SetDeps`. -/
def SetDependencies (w : DependencyInjected St D) (deps : D) :
    Except WError (DependencyInjected St D) :=
  if w.Initialized then .error .AlreadyLive
  else .ok { w with Deps := deps, SetDeps := true }

/-- Models `Initialize(args...)`: debug-asserts `SetDeps && !IsInitialized()`
(the two violation kinds `DependenciesNotBound` and `AlreadyLive`); then
sets `Initialized = true`, placement-news a fresh `T()` into the slot,
and calls `Instance->Initialize(Deps, args)`, returning that entry
point's result uninterpreted.  The net state change is recorded here:
the slot ends holding the instance as mutated by the entry point, the
pointer is non-null, the wrapper is live — independent of the result. -/
def Initialize (C : Component St D A R SA) (w : DependencyInjected St D)
    (args : A) : Except WError (DependencyInjected St D × R) :=
  if ¬ w.SetDeps then .error .DependenciesNotBound
  else if w.Initialized then .error .AlreadyLive
  else
    let p := C.init C.construct w.Deps args
    .ok ({ w with Memory := .obj p.1, Instance := true, Initialized := true },
         p.2)

/-- Models `Shutdown(args...)`: guarded by `if (Instance)`.  When the pointer is
non-null it calls `Instance->Shutdown(args)`, runs the destructor,
`memset`s the slot to zero, nulls the pointer and clears `Initialized`;
otherwise it is a no-op.  The second component records the entry-point
invocation: the instance state it ran on, the arguments, and the
(immediately destructed) state it produced; `none` means the entry point
was not invoked.  (The `Instance ∧ Memory = zero` case is unreachable
from the constructor — see `WfWrapper` — and is modelled as the wipe with
no recordable invocation.) -/
def Shutdown (C : Component St D A R SA) (w : DependencyInjected St D)
    (sargs : SA) : DependencyInjected St D × Option (St × SA × St) :=
  if w.Instance then
    match w.Memory with
    | .obj s =>
        ({ w with Memory := .zero, Instance := false, Initialized := false },
         some (s, sargs, C.shut s sargs))
    | .zero =>
        ({ w with Memory := .zero, Instance := false, Initialized := false },
         none)
  else (w, none)

/-- The destructor `~DependencyInjected()`: debug-asserts
`!IsInitialized()` (destruction while `Live` is the `DestroyedWhileLive`
violation), then calls `Shutdown()`.  `sargs` stands for the
zero-argument call the destructor makes. -/
def destruct (C : Component St D A R SA) (sargs : SA)
    (w : DependencyInjected St D) : Except WError (DependencyInjected St D) :=
  if w.Initialized then .error .DestroyedWhileLive
  else .ok (Shutdown C w sargs).1

/-- Dereference of the raw `Instance` pointer, bypassing every check:
`none` when the pointer is null, otherwise the slot contents it points
at. -/
def readInstance (w : DependencyInjected St D) : Option St :=
  if w.Instance then w.Memory.toObj else none

/-- Models `operator->`: debug-asserts `IsInitialized()` (the `NotLive`
violation), then returns the `Instance` pointer (modelled by its
dereference, `readInstance`). -/
def arrow (w : DependencyInjected St D) : Except WError (Option St) :=
  if w.Initialized then .ok (readInstance w) else .error .NotLive

/-- A method call on the wrapped object through the live instance
pointer (e.g. `(*wrapper)->DoThing()` mutating the object): rewrites the
slot contents in place; no-op when the pointer is null. -/
def touch (f : St → St) (w : DependencyInjected St D) :
    DependencyInjected St D :=
  if w.Instance then { w with Memory := w.Memory.mapObj f } else w

end DependencyInjected

/-- The spec's three lifecycle states (section 3). -/
inductive WState : Type where
  | Empty : WState
  | DepsBound : WState
  | Live : WState
deriving DecidableEq, Repr

/-- The wrapper's abstract lifecycle state, read off the flags:
`Live` iff `Initialized`, else `DepsBound` iff a descriptor has been
bound, else `Empty`. -/
def DependencyInjected.state {St D : Type} (w : DependencyInjected St D) :
    WState :=
  if w.Initialized then .Live
  else if w.SetDeps then .DepsBound
  else .Empty

/-- The proxy `OptionalDependency<T>` (src/DependencyInjected.h:297-353).
Its two pointer fields are modelled by their null-ness: `Reference` says
whether `T* Reference` is non-null (when non-null it points at the
target wrapper's `Memory` slot, obtained via `GetObjectPtr()`), and
`Wrapper` says whether `IDependencyInjected* Wrapper` is non-null (when
non-null it refers to the target wrapper's Liveness Cell). -/
structure OptionalDependency : Type where
  Reference : Bool
  Wrapper : Bool
deriving DecidableEq, Repr

namespace OptionalDependency

/-- The null constructor `OptionalDependency(void* ptr = nullptr)`:
both pointers null.  This construction can never fail. -/
def ofNull : OptionalDependency := ⟨false, false⟩

/-- The constructor `OptionalDependency(DependencyInjected<S>& wrapper)`:
`Wrapper = &wrapper` is the address of a reference, hence non-null, so
`Reference = wrapper.GetObjectPtr()` (the address of the slot, also
non-null). -/
def ofWrapperRef : OptionalDependency := ⟨true, true⟩

/-- The constructor `OptionalDependency(DependencyInjected<S>* wrapper)`:
`b` is whether the passed pointer is non-null; `Reference` is set to the
slot address exactly when it is. -/
def ofWrapperPtr (b : Bool) : OptionalDependency := ⟨b, b⟩

/-- Models `OptionalDependency::IsInitialized`: reads
`Wrapper != nullptr && Wrapper->IsInitialized()` through the stored
pointer, i.e. against the target wrapper's state `w` as it is at the
moment of the call. -/
def IsInitialized {St D : Type} (p : OptionalDependency)
    (w : DI.DependencyInjected St D) : Bool :=
  p.Wrapper && w.IsInitialized

/-- Models `OptionalDependency::operator->`: debug-asserts
`IsInitialized()` (the `NotLive` violation), then returns the
`Reference` pointer — `none` for a null pointer, otherwise the target
slot it points at. -/
def arrow {St D : Type} (p : OptionalDependency)
    (w : DI.DependencyInjected St D) : Except WError (Option (InstMem St)) :=
  if p.IsInitialized w then
    .ok (if p.Reference then some w.Memory else none)
  else .error .NotLive

end OptionalDependency

namespace RequiredDependency

/-- The default constructor `RequiredDependency()`: delegates to
`OptionalDependency<T>()` (absent target) and performs NO check — it
cannot fail and leaves `Reference` null. -/
def ofDefault : OptionalDependency := OptionalDependency.ofNull

/-- The constructor `RequiredDependency(DependencyInjected<S>& wrapper)`:
delegates to the `OptionalDependency` reference constructor and
debug-asserts `Reference != nullptr` (the `MissingRequiredDependency`
violation). -/
def ofWrapperRef : Except WError OptionalDependency :=
  let p := OptionalDependency.ofWrapperRef
  if p.Reference then .ok p else .error .MissingRequiredDependency

/-- The constructor `RequiredDependency(DependencyInjected<S>* wrapper)`:
delegates to the `OptionalDependency` pointer constructor and
debug-asserts `Reference != nullptr` (the `MissingRequiredDependency`
violation).  `b` is whether the passed pointer is non-null. -/
def ofWrapperPtr (b : Bool) : Except WError OptionalDependency :=
  let p := OptionalDependency.ofWrapperPtr b
  if p.Reference then .ok p else .error .MissingRequiredDependency

end RequiredDependency

/-- One caller-side operation on a wrapper, for quantifying over
"whatever happens to the wrapper afterwards". -/
inductive WOp (St D A SA : Type) : Type where
  | bind (deps : D) : WOp St D A SA
  | start (args : A) : WOp St D A SA
  | stop (sargs : SA) : WOp St D A SA
  | touch (f : St → St) : WOp St D A SA

/-- Apply one operation; an operation whose debug assert fires leaves
the wrapper unchanged (the trap aborts before any mutation). -/
def applyOp {St D A R SA : Type} (C : Component St D A R SA)
    (w : DependencyInjected St D) : WOp St D A SA → DependencyInjected St D
  | .bind deps =>
      match w.SetDependencies deps with
      | .ok w' => w'
      | .error _ => w
  | .start args =>
      match DependencyInjected.Initialize C w args with
      | .ok (w', _) => w'
      | .error _ => w
  | .stop sargs => (DependencyInjected.Shutdown C w sargs).1
  | .touch f => w.touch f

/-- Run a sequence of caller-side operations on a wrapper. -/
def runOps {St D A R SA : Type} (C : Component St D A R SA)
    (ops : List (WOp St D A SA)) (w : DependencyInjected St D) :
    DependencyInjected St D :=
  ops.foldl (applyOp C) w

/-- The wrapper's internal consistency invariant: the `Instance` pointer
is non-null exactly when the wrapper is live; when not live the slot is
fully zeroed; when live the slot holds a constructed instance and a
descriptor has been bound. -/
def WfWrapper {St D : Type} (w : DependencyInjected St D) : Prop :=
  w.Instance = w.Initialized ∧
  (w.Initialized = false → w.Memory = InstMem.zero) ∧
  (w.Initialized = true → w.Memory.isObj = true) ∧
  (w.Initialized = true → w.SetDeps = true)

/-- A sequence of method calls mutating the live instance during one
`Live` period. -/
def touchAll {St D : Type} (fs : List (St → St))
    (w : DependencyInjected St D) : DependencyInjected St D :=
  fs.foldl (fun w f => w.touch f) w

/-- One `Initialize(args)` … use … `Shutdown(sargs)` cycle with no
re-bind: initializes, observes the raw slot instance right after
initialization, performs the method calls `fs` while live, then shuts
down.  Returns the wrapper afterwards; the observation is `none` when
`Initialize` failed, otherwise `some` of (the dereferenced instance
pointer right after initialization, the initialization entry point's
result). -/
def cycle {St D A R SA : Type} (C : Component St D A R SA) (args : A)
    (sargs : SA) (fs : List (St → St)) (w : DependencyInjected St D) :
    DependencyInjected St D × Option (Option St × R) :=
  match DependencyInjected.Initialize C w args with
  | .error _ => (w, none)
  | .ok (w', r) =>
      ((DependencyInjected.Shutdown C (touchAll fs w') sargs).1,
       some (w'.readInstance, r))

/-- Iterated initialize/use/shutdown cycles (one entry of `fss` per
cycle), collecting each cycle's observation. -/
def cycles {St D A R SA : Type} (C : Component St D A R SA) (args : A)
    (sargs : SA) :
    List (List (St → St)) → DependencyInjected St D →
      DependencyInjected St D × List (Option (Option St × R))
  | [], w => (w, [])
  | fs :: fss, w =>
      let c := cycle C args sargs fs w
      let t := cycles C args sargs fss c.1
      (t.1, c.2 :: t.2)

/-! ### Concrete test fixture (used by the witness theorems)

A component whose instance state is a `Nat` counter: the default
constructor starts it at `0`, `Initialize(deps, a)` sets it to
`deps + a` and reports `true`, `Shutdown(x)` adds `x` before
destruction, and method calls may mutate it arbitrarily. -/

/-- Concrete component used by witnesses. -/
def testComp : Component Nat Nat Nat Bool Nat :=
  { construct := 0
    init := fun s d a => (s + d + a, true)
    shut := fun s x => s + x }

/-- A freshly constructed wrapper (state `Empty`). -/
def wEmpty : DependencyInjected Nat Nat := DependencyInjected.create 0

/-- The fresh wrapper after `SetDependencies(7)` (state `DepsBound`). -/
def wBound : DependencyInjected Nat Nat :=
  { wEmpty with Deps := 7, SetDeps := true }

/-- The bound wrapper after `Initialize(5)` (state `Live`, instance
state `0 + 7 + 5 = 12`). -/
def wLive : DependencyInjected Nat Nat :=
  { wBound with Memory := .obj 12, Instance := true, Initialized := true }

/-- C1: `Initialize` fails with `DependenciesNotBound` when no descriptor
has ever been bound, fails with `AlreadyLive` when the wrapper is
already live; otherwise it constructs a fresh `T()` in the slot, invokes
the initialization entry point on it with the bound descriptor and the
caller's arguments, transitions the wrapper to live, and returns exactly
the entry point's result, uninterpreted (`R` is arbitrary): the wrapper
is live in the returned state whatever the result says, with no rollback
or auto-shutdown. -/
theorem Initialize_contract {St D A R SA : Type} (C : Component St D A R SA)
    (w : DependencyInjected St D) (args : A) :
    (w.SetDeps = false →
      DependencyInjected.Initialize C w args =
        .error WError.DependenciesNotBound) ∧
    (w.SetDeps = true → w.Initialized = true →
      DependencyInjected.Initialize C w args = .error WError.AlreadyLive) ∧
    (w.SetDeps = true → w.Initialized = false →
      DependencyInjected.Initialize C w args =
        .ok ({ w with Memory := .obj (C.init C.construct w.Deps args).1,
                      Instance := true, Initialized := true },
             (C.init C.construct w.Deps args).2)) := by
  refine ⟨fun h1 => ?_, fun h1 h2 => ?_, fun h1 h2 => ?_⟩ <;>
    simp [DependencyInjected.Initialize, h1] <;> simp [h2]

/-- C1 witness: on the concrete `DepsBound` wrapper `wBound` (descriptor
`7`), `Initialize(5)` succeeds with instance state `12` and result
`true`. -/
theorem Initialize_contract_witness :
    wBound.SetDeps = true ∧ wBound.Initialized = false ∧
    DependencyInjected.Initialize testComp wBound 5 =
      .ok ({ wBound with
             Memory := .obj (testComp.init testComp.construct wBound.Deps 5).1
             Instance := true
             Initialized := true },
           (testComp.init testComp.construct wBound.Deps 5).2) :=
  ⟨rfl, rfl, (Initialize_contract testComp wBound 5).2.2 rfl rfl⟩

/-- C8: `SetDependencies` fails with `AlreadyLive` when the wrapper is
live; from a non-live wrapper (`Empty` or `DepsBound`) it stores the
descriptor and moves/keeps the state at `DepsBound`, and a second bind
before the wrapper becomes live simply overwrites the previously stored
descriptor. -/
theorem SetDependencies_contract {St D : Type} (w : DependencyInjected St D)
    (d1 d2 : D) :
    (w.Initialized = true →
      w.SetDependencies d1 = .error WError.AlreadyLive) ∧
    (w.Initialized = false →
      w.SetDependencies d1 = .ok { w with Deps := d1, SetDeps := true } ∧
      ({ w with Deps := d1, SetDeps := true } :
          DependencyInjected St D).state = WState.DepsBound ∧
      ({ w with Deps := d1, SetDeps := true } :
          DependencyInjected St D).SetDependencies d2 =
        .ok { w with Deps := d2, SetDeps := true }) := by
  refine ⟨fun h => ?_, fun h => ⟨?_, ?_, ?_⟩⟩ <;>
    simp [DependencyInjected.SetDependencies, DependencyInjected.state, h]

/-- C8 witness: binding `3` then `4` on the fresh wrapper `wEmpty`
overwrites the descriptor and lands in `DepsBound`. -/
theorem SetDependencies_contract_witness :
    wEmpty.Initialized = false ∧
    (wEmpty.SetDependencies 3 = .ok { wEmpty with Deps := 3, SetDeps := true } ∧
     ({ wEmpty with Deps := 3, SetDeps := true } :
         DependencyInjected Nat Nat).state = WState.DepsBound ∧
     ({ wEmpty with Deps := 3, SetDeps := true } :
         DependencyInjected Nat Nat).SetDependencies 4 =
       .ok { wEmpty with Deps := 4, SetDeps := true }) :=
  ⟨rfl, (SetDependencies_contract wEmpty 3 4).2 rfl⟩

/-- C7: an Optional proxy built from an absent/null target (its
construction is a total function — it cannot fail, and the null-pointer
constructor produces the same proxy) is permanently inert: after any
sequence of operations on any wrapper, `IsInitialized()` is `false` and
`operator->` fails with `NotLive`. -/
theorem optional_null_inert {St D A R SA : Type} (C : Component St D A R SA)
    (ops : List (WOp St D A SA)) (w : DependencyInjected St D) :
    OptionalDependency.ofWrapperPtr false = OptionalDependency.ofNull ∧
    OptionalDependency.ofNull.IsInitialized (runOps C ops w) = false ∧
    OptionalDependency.ofNull.arrow (runOps C ops w) =
      .error WError.NotLive := by
  refine ⟨rfl, rfl, ?_⟩
  simp [OptionalDependency.arrow, OptionalDependency.IsInitialized,
        OptionalDependency.ofNull]

/-- C3: a proxy built from a reference to wrapper `B` (the Optional and
Required reference constructors produce the same proxy value) reports,
after any sequence of operations applied to `B` and without the proxy
being touched, exactly `B`'s current liveness: `true` iff `B`'s current
state is `Live` (hence `false` while it is `Empty` or `DepsBound`). -/
theorem proxy_tracks_liveness {St D A R SA : Type} (C : Component St D A R SA)
    (ops : List (WOp St D A SA)) (w : DependencyInjected St D) :
    RequiredDependency.ofWrapperRef = .ok OptionalDependency.ofWrapperRef ∧
    OptionalDependency.ofWrapperRef.IsInitialized (runOps C ops w) =
      decide ((runOps C ops w).state = WState.Live) := by
  refine ⟨rfl, ?_⟩
  generalize runOps C ops w = w'
  rcases hi : w'.Initialized <;> rcases hs : w'.SetDeps <;>
    simp [OptionalDependency.IsInitialized, OptionalDependency.ofWrapperRef,
          DependencyInjected.IsInitialized, DependencyInjected.state, hi, hs]

/-- C4 counterexample: the no-argument default constructor
`RequiredDependency()` builds a Required proxy with an absent target; it
performs no check (its result type shows it cannot fail), yet the
constructed proxy's stored target address is absent — refuting both
"constructing a Required proxy from an absent target fails with
`MissingRequiredDependency`" and "every successfully constructed
Required proxy's stored target address is non-absent". -/
theorem required_default_counterexample :
    RequiredDependency.ofDefault.Reference = false ∧
    RequiredDependency.ofDefault.Wrapper = false :=
  ⟨rfl, rfl⟩

/-- C4 (amended): constructing a Required proxy from a null wrapper
pointer fails immediately with `MissingRequiredDependency` at wiring
time, before any initialization and independently of later liveness;
every Required proxy successfully constructed from a wrapper pointer or
wrapper reference stores a non-absent target address (the reference
constructor always succeeds, since a wrapper reference is never
absent). -/
theorem required_fromTarget_contract (b : Bool) :
    RequiredDependency.ofWrapperPtr false =
      .error WError.MissingRequiredDependency ∧
    (∀ p, RequiredDependency.ofWrapperPtr b = .ok p →
      p.Reference = true ∧ p.Wrapper = true) ∧
    RequiredDependency.ofWrapperRef = .ok OptionalDependency.ofWrapperRef ∧
    OptionalDependency.ofWrapperRef.Reference = true := by
  refine ⟨rfl, fun p hp => ?_, rfl, rfl⟩
  rcases b with _ | _
  · simp [RequiredDependency.ofWrapperPtr, OptionalDependency.ofWrapperPtr]
      at hp
  · simp [RequiredDependency.ofWrapperPtr, OptionalDependency.ofWrapperPtr]
      at hp
    simp [← hp, OptionalDependency.ofWrapperPtr]

/-- C4 witness: a Required proxy built from a non-null wrapper pointer
succeeds and stores a non-absent address. -/
theorem required_fromTarget_contract_witness :
    RequiredDependency.ofWrapperPtr true =
      .ok (OptionalDependency.ofWrapperPtr true) ∧
    (OptionalDependency.ofWrapperPtr true).Reference = true ∧
    (OptionalDependency.ofWrapperPtr true).Wrapper = true :=
  ⟨rfl, (required_fromTarget_contract true).2.1 _ rfl⟩

/-- C5: on a well-formed wrapper, `Shutdown` is a no-op (wrapper value
unchanged, entry point not invoked) when the wrapper is not live; when
it is live the slot holds an instance `s`, the component's shutdown
entry point is invoked on `s` with the caller's arguments (third trace
component: the state it produced, destructed immediately after), the
slot is overwritten entirely with the zero sentinel, the instance
pointer is nulled, the Liveness Cell is cleared, and the wrapper lands
in `DepsBound` with the bound descriptor retained. -/
theorem Shutdown_contract {St D A R SA : Type} (C : Component St D A R SA)
    (w : DependencyInjected St D) (sargs : SA) (h : WfWrapper w) :
    (w.Initialized = false →
      DependencyInjected.Shutdown C w sargs = (w, none)) ∧
    (w.Initialized = true → ∃ s, w.Memory = InstMem.obj s ∧
      DependencyInjected.Shutdown C w sargs =
        ({ w with Memory := .zero, Instance := false, Initialized := false },
         some (s, sargs, C.shut s sargs)) ∧
      (DependencyInjected.Shutdown C w sargs).1.state = WState.DepsBound ∧
      (DependencyInjected.Shutdown C w sargs).1.Deps = w.Deps ∧
      (DependencyInjected.Shutdown C w sargs).1.SetDeps = true) := by
  obtain ⟨hptr, _, hobj, hdeps⟩ := h
  refine ⟨fun hi => ?_, fun hi => ?_⟩
  · simp [DependencyInjected.Shutdown, hptr, hi]
  · rcases hm : w.Memory with _ | s
    · rw [hm] at hobj
      simp [InstMem.isObj] at hobj
      simp [hi] at hobj
    · exact ⟨s, rfl, by
        simp [DependencyInjected.Shutdown, hptr, hi, hm,
              DependencyInjected.state, hdeps hi]⟩

/-- C5 witness: shutting down the live wrapper `wLive` (instance state
`12`) with argument `3` invokes the shutdown entry point on `(12, 3)`,
zeroes the slot, nulls the pointer, clears liveness, and retains the
descriptor. -/
theorem Shutdown_contract_witness :
    WfWrapper wLive ∧
    DependencyInjected.Shutdown testComp wLive 3 =
      ({ wLive with Memory := .zero, Instance := false, Initialized := false },
       some (12, 3, testComp.shut 12 3)) := by
  have h : WfWrapper wLive := by
    refine ⟨rfl, fun hc => ?_, fun _ => rfl, fun _ => rfl⟩
    simp [wLive, wBound, wEmpty, DependencyInjected.create] at hc
  refine ⟨h, ?_⟩
  obtain ⟨s, hs, heq, -⟩ := (Shutdown_contract testComp wLive 3 h).2 rfl
  obtain rfl : s = 12 := by
    have : InstMem.obj (12 : Nat) = InstMem.obj s := hs
    cases this
    rfl
  exact heq

/-- C6: destroying a wrapper that is live at the moment of destruction
fails with `DestroyedWhileLive`; destroying a well-formed non-live
wrapper (`Empty` or `DepsBound`) succeeds, leaves the wrapper value as
it was, and the `Shutdown()` call the destructor makes destructs no
instance (its invocation trace is empty). -/
theorem destruct_contract {St D A R SA : Type} (C : Component St D A R SA)
    (sargs : SA) (w : DependencyInjected St D) (h : WfWrapper w) :
    (w.Initialized = true →
      DependencyInjected.destruct C sargs w = .error WError.DestroyedWhileLive) ∧
    (w.Initialized = false →
      DependencyInjected.destruct C sargs w = .ok w ∧
      (DependencyInjected.Shutdown C w sargs).2 = none) := by
  obtain ⟨hptr, -, -, -⟩ := h
  refine ⟨fun hi => ?_, fun hi => ?_⟩
  · simp [DependencyInjected.destruct, hi]
  · constructor
    · simp [DependencyInjected.destruct, DependencyInjected.Shutdown, hptr, hi]
    · simp [DependencyInjected.Shutdown, hptr, hi]

/-- C6 witness: destroying the non-live bound wrapper `wBound` succeeds
with no instance destructed, and destroying the live wrapper `wLive`
fails with `DestroyedWhileLive`. -/
theorem destruct_contract_witness :
    WfWrapper wBound ∧
    (DependencyInjected.destruct testComp 0 wBound = .ok wBound ∧
     (DependencyInjected.Shutdown testComp wBound 0).2 = none) ∧
    DependencyInjected.destruct testComp 0 wLive =
      .error WError.DestroyedWhileLive := by
  have hb : WfWrapper wBound := by
    refine ⟨rfl, fun _ => rfl, fun hc => ?_, fun hc => ?_⟩ <;>
      simp [wBound, wEmpty, DependencyInjected.create] at hc
  have hl : WfWrapper wLive := by
    refine ⟨rfl, fun hc => ?_, fun _ => rfl, fun _ => rfl⟩
    simp [wLive, wBound, wEmpty, DependencyInjected.create] at hc
  exact ⟨hb, (destruct_contract testComp 0 wBound hb).2 rfl,
         (destruct_contract testComp 0 wLive hl).1 rfl⟩

/-- C9: a freshly created wrapper (for any component type, i.e. any
default descriptor value `d0`) is not live and its `operator->` fails
with `NotLive`; more generally `operator->` fails with `NotLive` on any
wrapper that is not live, and on a live well-formed wrapper it returns
the pointer to the instance occupying the wrapper's own slot. -/
theorem fresh_and_access_contract {St D : Type} (d0 : D)
    (w : DependencyInjected St D) :
    ((DependencyInjected.create d0 : DependencyInjected St D).IsInitialized
        = false ∧
     (DependencyInjected.create d0 : DependencyInjected St D).arrow =
        .error WError.NotLive) ∧
    (w.Initialized = false → w.arrow = .error WError.NotLive) ∧
    (WfWrapper w → w.Initialized = true →
      ∃ s, w.Memory = InstMem.obj s ∧ w.arrow = .ok (some s)) := by
  refine ⟨⟨rfl, rfl⟩, fun hi => ?_, fun h hi => ?_⟩
  · simp [DependencyInjected.arrow, hi]
  · obtain ⟨hptr, -, hobj, -⟩ := h
    rcases hm : w.Memory with _ | s
    · rw [hm] at hobj
      simp [InstMem.isObj] at hobj
      simp [hi] at hobj
    · exact ⟨s, rfl, by
        simp [DependencyInjected.arrow, DependencyInjected.readInstance,
              InstMem.toObj, hptr, hi, hm]⟩

/-- C9 witness: the fresh wrapper `wEmpty` is not live and access fails
with `NotLive`; access on the live wrapper `wLive` reaches the instance
(state `12`) in the slot. -/
theorem fresh_and_access_contract_witness :
    (wEmpty.IsInitialized = false ∧ wEmpty.arrow = .error WError.NotLive) ∧
    WfWrapper wLive ∧
    (∃ s, wLive.Memory = InstMem.obj s ∧ wLive.arrow = .ok (some s)) := by
  have hl : WfWrapper wLive := by
    refine ⟨rfl, fun hc => ?_, fun _ => rfl, fun _ => rfl⟩
    simp [wLive, wBound, wEmpty, DependencyInjected.create] at hc
  exact ⟨(fresh_and_access_contract 0 wEmpty).1, hl,
         (fresh_and_access_contract (0 : Nat) wLive).2.2 hl rfl⟩

/-- C10: every wrapper operation — construction, bind, initialize,
shutdown — preserves the internal invariant `WfWrapper` (the instance
pointer is non-null iff the wrapper is live, and every byte of the slot
is zero whenever the wrapper is not live); consequently a raw access
that bypasses the liveness check on a non-live wrapper reads a null
pointer, never a pointer to a stale instance. -/
theorem invariant_preserved {St D A R SA : Type} (C : Component St D A R SA) :
    (∀ d0 : D,
      WfWrapper (DependencyInjected.create d0 : DependencyInjected St D)) ∧
    (∀ (w : DependencyInjected St D) (deps : D) w',
      WfWrapper w → w.SetDependencies deps = .ok w' → WfWrapper w') ∧
    (∀ (w : DependencyInjected St D) (args : A) w' (r : R),
      WfWrapper w → DependencyInjected.Initialize C w args = .ok (w', r) →
      WfWrapper w') ∧
    (∀ (w : DependencyInjected St D) (sargs : SA),
      WfWrapper w → WfWrapper (DependencyInjected.Shutdown C w sargs).1) ∧
    (∀ w : DependencyInjected St D, WfWrapper w → w.Initialized = false →
      w.Instance = false ∧ w.Memory = InstMem.zero ∧
      w.readInstance = none) := by
  refine ⟨fun d0 => ⟨rfl, fun _ => rfl, fun hc => ?_, fun hc => ?_⟩,
          fun w deps w' hw hok => ?_, fun w args w' r hw hok => ?_,
          fun w sargs hw => ?_, fun w hw hi => ?_⟩
  · simp [DependencyInjected.create] at hc
  · simp [DependencyInjected.create] at hc
  · obtain ⟨hptr, hzero, hobj, hdeps⟩ := hw
    rcases hi : w.Initialized with _ | _
    · rw [DependencyInjected.SetDependencies, hi] at hok
      simp at hok
      exact ⟨by simp [← hok, hptr, hi], fun _ => by simp [← hok, hzero hi],
             fun hc => by simp [← hok, hi] at hc,
             fun hc => by simp [← hok, hi] at hc⟩
    · rw [DependencyInjected.SetDependencies, hi] at hok
      simp at hok
  · rcases hs : w.SetDeps with _ | _
    · rw [DependencyInjected.Initialize, hs] at hok
      simp at hok
    · rcases hi : w.Initialized with _ | _
      · rw [DependencyInjected.Initialize, hs, hi] at hok
        simp at hok
        exact ⟨by simp [← hok.1], fun hc => by simp [← hok.1] at hc,
               fun _ => by simp [← hok.1, InstMem.isObj],
               fun _ => by simp [← hok.1, hs]⟩
      · rw [DependencyInjected.Initialize, hs, hi] at hok
        simp at hok
  · obtain ⟨hptr, hzero, hobj, hdeps⟩ := hw
    rcases hin : w.Instance with _ | _
    · rw [DependencyInjected.Shutdown, hin]
      simpa using ⟨hptr, hzero, hobj, hdeps⟩
    · rw [DependencyInjected.Shutdown, hin]
      rcases w.Memory with _ | s <;>
        exact ⟨rfl, fun _ => rfl, fun hc => by simp at hc,
               fun hc => by simp at hc⟩
  · obtain ⟨hptr, hzero, hobj, hdeps⟩ := hw
    refine ⟨hptr.trans hi, hzero hi, ?_⟩
    simp [DependencyInjected.readInstance, hptr, hi]

/-- C10 witness: the invariant holds for the fresh wrapper, is carried
through bind and initialize to the concrete live wrapper `wLive`, and
is preserved by shutting `wLive` down. -/
theorem invariant_preserved_witness :
    WfWrapper wEmpty ∧ WfWrapper wLive ∧
    WfWrapper (DependencyInjected.Shutdown testComp wLive 0).1 := by
  have hl : WfWrapper wLive := by
    refine ⟨rfl, fun hc => ?_, fun _ => rfl, fun _ => rfl⟩
    simp [wLive, wBound, wEmpty, DependencyInjected.create] at hc
  exact ⟨(invariant_preserved testComp).1 0, hl,
         (invariant_preserved testComp).2.2.2.1 wLive 0 hl⟩

/-- Helper for C2: method calls while live only rewrite the instance in
the slot; the wrapper's flags and descriptor are untouched. -/
theorem touchAll_live {St D : Type} (fs : List (St → St)) (s : St) (d : D) :
    touchAll fs
      ({ Memory := .obj s, Instance := true, Deps := d, SetDeps := true,
         Initialized := true } : DependencyInjected St D) =
      { Memory := .obj (fs.foldl (fun a f => f a) s), Instance := true,
        Deps := d, SetDeps := true, Initialized := true } := by
  induction fs generalizing s with
  | nil => rfl
  | cons f fs ih =>
      simpa [touchAll, DependencyInjected.touch, InstMem.mapObj,
             List.foldl_cons] using ih (f s)

/-- Helper for C2: one full initialize/use/shutdown cycle starting from
a well-formed `DepsBound` wrapper succeeds, observes the brand-new
constructed-and-initialized instance, and returns the wrapper to
exactly its starting value, whatever the method calls `fs` did to the
instance while it was live. -/
theorem cycle_eq {St D A R SA : Type} (C : Component St D A R SA) (args : A)
    (sargs : SA) (fs : List (St → St)) (d : D) :
    cycle C args sargs fs
      ({ Memory := .zero, Instance := false, Deps := d, SetDeps := true,
         Initialized := false } : DependencyInjected St D) =
      ({ Memory := .zero, Instance := false, Deps := d, SetDeps := true,
         Initialized := false },
       some (some (C.init C.construct d args).1,
             (C.init C.construct d args).2)) := by
  simp [cycle, DependencyInjected.Initialize, touchAll_live,
        DependencyInjected.Shutdown, DependencyInjected.readInstance,
        InstMem.toObj]

/-- C2: from any wrapper with a bound descriptor that is not live (slot
zeroed, pointer null), arbitrarily many shutdown+initialize cycles with
no re-bind all succeed; the instance observed right after each cycle's
initialize is the same brand-new constructed-and-initialized state as
after the very first initialize — no mutation made during a prior live
period survives — and the initialization result is the entry point's
fresh result each time. -/
theorem shutdown_initialize_cycles_clean {St D A R SA : Type}
    (C : Component St D A R SA) (w : DependencyInjected St D) (args : A)
    (sargs : SA) (hs : w.SetDeps = true) (hi : w.Initialized = false)
    (hp : w.Instance = false) (hm : w.Memory = InstMem.zero)
    (fss : List (List (St → St))) :
    cycles C args sargs fss w =
      (w, fss.map fun _ =>
        some (some (C.init C.construct w.Deps args).1,
              (C.init C.construct w.Deps args).2)) := by
  obtain ⟨M, I, d, S, Z⟩ := w
  simp only at hs hi hp hm
  subst hs hi hp hm
  induction fss with
  | nil => rfl
  | cons fs fss ih => simp [cycles, cycle_eq, ih]

/-- C2 witness: two concrete cycles on the bound wrapper `wBound`
(descriptor `7`, argument `5`), the first mutating the live instance
with a method call (`Nat.succ`): both cycles observe the fresh instance
state `12` and result `true`, and the wrapper ends exactly as it
started. -/
theorem shutdown_initialize_cycles_clean_witness :
    wBound.SetDeps = true ∧ wBound.Initialized = false ∧
    wBound.Instance = false ∧ wBound.Memory = InstMem.zero ∧
    cycles testComp 5 0 [[Nat.succ], []] wBound =
      (wBound, List.map (fun _ =>
        some (some (testComp.init testComp.construct wBound.Deps 5).1,
              (testComp.init testComp.construct wBound.Deps 5).2))
        [[Nat.succ], []]) :=
  ⟨rfl, rfl, rfl, rfl,
   shutdown_initialize_cycles_clean testComp wBound 5 0 rfl rfl rfl rfl
     [[Nat.succ], []]⟩

end DI
